import Mathlib

/-!
Verification of the Cronos402 payment subsystem.

Shallow embedding of the payment authorization and settlement code:
`src/lib/cronos-constants.ts`, the EIP-3009 signer module
(`createTransferAuthorization`, `generateNonce`,
`validateTransferAuthorization`), the native CRO payment module
(`buildCroTransaction`, `validateCroTransaction`, `verifyCroPayment`),
the facilitator client (`CronosFacilitatorClient.verifyAndSettle`) and
the payment routing strategy (`CronosPaymentStrategy.canSign`).

JavaScript `bigint` values are modelled as `Int`, addresses, nonces and
network tags as `String`, and the ambient effects (current time, random
nonce bytes, network responses) as explicit parameters.
-/

namespace Cronos402

/-! ## Constants (`cronos-constants.ts`) -/

def CRONOS_NETWORK_MAINNET : String := "cronos-mainnet"

def CRONOS_NETWORK_TESTNET : String := "cronos-testnet"

/-- Native CRO token sentinel (zero address represents the native token). -/
def CRO_ADDRESS : String := "0x0000000000000000000000000000000000000000"

def USDC_ADDRESS_MAINNET : String := "0xf951eC28187D9E5Ca673Da8FE6757E6f0Be5F77C"

def USDC_ADDRESS_TESTNET : String := "0xc01efAaF7C5C61bEbFAeb358E1161b537b8bC0e0"

/-- `USDC_METADATA.DECIMALS` -/
def USDC_DECIMALS : Nat := 6

/-- `CRO_METADATA.DECIMALS` -/
def CRO_DECIMALS : Nat := 18

/-- `getUsdcAddress(network)` -/
def getUsdcAddress (network : String) : String :=
  if network == CRONOS_NETWORK_MAINNET then USDC_ADDRESS_MAINNET else USDC_ADDRESS_TESTNET

/-- `getChainId(network)` -/
def getChainId (network : String) : Int :=
  if network == CRONOS_NETWORK_MAINNET then 25 else 338

/-- `isCronosNetwork(network)` -/
def isCronosNetwork (network : String) : Bool :=
  network == CRONOS_NETWORK_MAINNET || network == CRONOS_NETWORK_TESTNET

/-! ## viem decimal conversion (`parseUnits`, `formatUnits`)

`parseUnits(value, decimals)` parses a decimal string into a bigint in
base units, exactly, with half-up rounding of fraction digits beyond the
decimal scale; a string not matching `^(-?)([0-9]*)\.?([0-9]*)$` throws
(modelled as `none`). -/

/-- Split a character list at every occurrence of `c` (JS `String.split`). -/
def splitOnChar (c : Char) : List Char → List (List Char)
  | [] => [[]]
  | x :: xs =>
    let rest := splitOnChar c xs
    if x == c then [] :: rest
    else
      match rest with
      | r :: rs => (x :: r) :: rs
      | [] => [[x]]

/-- Numeric value of a list of decimal digit characters (empty list is 0,
matching JS `BigInt("")`). -/
def digitsVal (l : List Char) : Nat :=
  l.foldl (fun a c => a * 10 + (c.toNat - 48)) 0

/-- Drop trailing `'0'` characters (viem trims the fraction with
`fraction.replace(/(0+)$/, '')`). -/
def trimTrailingZeros (l : List Char) : List Char :=
  (l.reverse.dropWhile (fun c => c == '0')).reverse

/-- Magnitude-and-sign core of viem `parseUnits`: integer digits `i`,
fraction digits `f`, decimal scale `d`.  Fraction digits beyond `d` are
rounded half-up on the magnitude, exactly as viem's string surgery does. -/
def parseUnitsCore (neg : Bool) (i f : List Char) (d : Nat) : Int :=
  let fr := trimTrailingZeros f
  let iv := digitsVal i
  let fLen := fr.length
  let fv := digitsVal fr
  let mag : Nat :=
    if fLen ≤ d then iv * 10 ^ d + fv * 10 ^ (d - fLen)
    else
      let k := fLen - d
      iv * 10 ^ d + fv / 10 ^ k + (if 10 ^ k ≤ 2 * (fv % 10 ^ k) then 1 else 0)
  if neg then -(mag : Int) else (mag : Int)

/-- viem `parseUnits(value, decimals)`; `none` models the thrown
`InvalidDecimalNumberError`. -/
def parseUnits (value : String) (decimals : Nat) : Option Int :=
  let (neg, rest) :=
    match value.toList with
    | '-' :: cs => (true, cs)
    | cs => (false, cs)
  match splitOnChar '.' rest with
  | [i] =>
      if i.all Char.isDigit then some (parseUnitsCore neg i [] decimals) else none
  | [i, f] =>
      if i.all Char.isDigit && f.all Char.isDigit then
        some (parseUnitsCore neg i f decimals)
      else none
  | _ => none

/-- Pad a string on the left with `c` up to length `n` (JS `padStart`). -/
def padStart (s : String) (n : Nat) (c : Char) : String :=
  String.mk (List.replicate (n - s.length) c) ++ s

/-- ASCII lower-casing of one character (what JS `toLowerCase` does on the
hexadecimal address strings this code compares). -/
def toLowerChar (c : Char) : Char :=
  if 65 ≤ c.toNat ∧ c.toNat ≤ 90 then Char.ofNat (c.toNat + 32) else c

/-- JS `String.prototype.toLowerCase` on ASCII strings. -/
def toLowerCase (s : String) : String :=
  String.mk (s.toList.map toLowerChar)

/-- viem `formatUnits(value, decimals)`: render a base-unit integer as a
human-readable decimal string. -/
def formatUnits (value : Int) (decimals : Nat) : String :=
  let neg := value < 0
  let display := padStart (toString value.natAbs) decimals '0'
  let integer := String.mk (display.toList.take (display.length - decimals))
  let fraction := String.mk (trimTrailingZeros (display.toList.drop (display.length - decimals)))
  (if neg then "-" else "") ++
    (if integer == "" then "0" else integer) ++
    (if fraction == "" then "" else "." ++ fraction)

/-! ## Data model (`eip3009-signer.ts`, `cro-payment.ts`) -/

/-- Result shape `{ valid: boolean; error?: string }` of the validators. -/
structure ValidationResult where
  valid : Bool
  error : Option String
deriving DecidableEq

/-- EIP-3009 `TransferAuthorization` (`from` and `to` are spelled
`from_` and `to_`; both are reserved words in Lean). -/
structure TransferAuthorization where
  from_ : String
  to_ : String
  value : Int
  validAfter : Int
  validBefore : Int
  nonce : String
deriving DecidableEq

/-- `SignedTransferAuthorization = TransferAuthorization & { signature }`. -/
structure SignedTransferAuthorization extends TransferAuthorization where
  signature : String
deriving DecidableEq

/-! ## Nonce generation (`generateNonce`)

`Date.now()` and the 24 random bytes are explicit parameters. -/

/-- Hex digits of `n` accumulated most-significant first, with structural
fuel (any fuel above the digit count gives the exact digits). -/
def hexDigitsCore : Nat → Nat → List Char → List Char
  | 0, _, acc => acc
  | fuel + 1, n, acc =>
    let d := Nat.digitChar (n % 16)
    let n' := n / 16
    if n' = 0 then d :: acc else hexDigitsCore fuel n' (d :: acc)

/-- JS `n.toString(16)` for a non-negative bigint (lower-case digits). -/
def natToHex (n : Nat) : String :=
  String.mk (hexDigitsCore (n + 1) n [])

/-- One byte rendered as two hex characters
(`b.toString(16).padStart(2, '0')`). -/
def byteToHex (b : Nat) : String :=
  padStart (natToHex b) 2 '0'

/-- `Array.from(randomBytes).map(..).join('')`. -/
def bytesToHex : List Nat → String
  | [] => ""
  | b :: rest => byteToHex b ++ bytesToHex rest

/-- `generateNonce()`: 8-byte big-endian timestamp plus 24 random bytes as a
`0x`-prefixed hex string. -/
def generateNonce (timestampMs : Nat) (randomBytes : List Nat) : String :=
  "0x" ++ padStart (natToHex timestampMs) 16 '0' ++ bytesToHex randomBytes

/-! ## AuthorizationBuilder (`createTransferAuthorization`) -/

/-- `createTransferAuthorization(from, to, amount, validityWindow = 3600)`.
`now` is `Math.floor(Date.now() / 1000)` and `nonce` the generated nonce,
both passed explicitly; `none` models the exception thrown by `parseUnits`
on a malformed amount string. -/
def createTransferAuthorization (from_ to_ : String) (amount : String)
    (now : Int) (nonce : String) (validityWindow : Int := 3600) :
    Option TransferAuthorization :=
  (parseUnits amount 6).map fun value =>
    { from_ := from_, to_ := to_, value := value, validAfter := 0,
      validBefore := now + validityWindow, nonce := nonce }

/-! ## AuthorizationValidator (`validateTransferAuthorization`) -/

/-- `validateTransferAuthorization(auth)`; `now` is
`Math.floor(Date.now() / 1000)`. -/
def validateTransferAuthorization (auth : TransferAuthorization) (now : Int) :
    ValidationResult :=
  if auth.value ≤ 0 then
    { valid := false, error := some "Transfer amount must be positive" }
  else if auth.from_ == auth.to_ then
    { valid := false, error := some "Cannot transfer to self" }
  else if auth.validBefore ≤ now then
    { valid := false, error := some "Authorization has expired" }
  else if auth.validAfter > now then
    { valid := false, error := some "Authorization not yet valid" }
  else if auth.nonce.length ≠ 66 then
    { valid := false, error := some "Invalid nonce format" }
  else
    { valid := true, error := none }

/-! ## Native CRO transfers (`cro-payment.ts`) -/

/-- `CroTransaction` (gas fields that the claims never touch are kept as
options with the values `buildCroTransaction` assigns). -/
structure CroTransaction where
  from_ : String
  to_ : String
  value : Int
  chainId : Int
  gasLimit : Option Int := none
deriving DecidableEq

/-- `buildCroTransaction(from, to, amountCro, network)`. -/
def buildCroTransaction (from_ to_ amountCro : String) (network : String) :
    Option CroTransaction :=
  (parseUnits amountCro CRO_DECIMALS).map fun value =>
    { from_ := from_, to_ := to_, value := value,
      chainId := getChainId network, gasLimit := some 21000 }

/-- `validateCroTransaction(transaction)`. -/
def validateCroTransaction (transaction : CroTransaction) : ValidationResult :=
  if transaction.value ≤ 0 then
    { valid := false, error := some "Transfer amount must be positive" }
  else if toLowerCase transaction.from_ == toLowerCase transaction.to_ then
    { valid := false, error := some "Cannot transfer to self" }
  else if transaction.to_ == CRO_ADDRESS then
    { valid := false, error := some "Cannot transfer to zero address" }
  else
    { valid := true, error := none }

/-! ## DirectTransferVerifier (`verifyCroPayment`)

The chain-query capability is modelled by passing the responses the code
would receive: the receipt returned by `getTransactionReceipt` (or `none`),
the transaction details returned by `getTransaction` (or `none`), and the
current block number from `getBlockNumber`. -/

/-- The receipt fields `verifyCroPayment` reads. -/
structure Receipt where
  status : String
  blockNumber : Int
deriving DecidableEq

/-- The transaction fields `verifyCroPayment` reads (`to` may be absent for
contract-creation transactions). -/
structure TxDetails where
  to_ : Option String
  value : Int
deriving DecidableEq

/-- `CroPaymentVerification` result shape. -/
structure CroPaymentVerification where
  valid : Bool
  txHash : Option String
  receipt : Option Receipt
  error : Option String
  reason : Option String
deriving DecidableEq

/-- `verifyCroPayment(txHash, expectedRecipient, expectedAmount, network,
minConfirmations = 2)`, as a pure function of the chain responses.  A
malformed `expectedAmount` makes `parseUnits` throw inside the `try`, so the
`catch` branch produces `error: 'Verification failed'` with viem's message
as the reason. -/
def verifyCroPayment (txHash expectedRecipient expectedAmount : String)
    (receipt? : Option Receipt) (tx? : Option TxDetails) (currentBlock : Int)
    (minConfirmations : Int := 2) : CroPaymentVerification :=
  match receipt? with
  | none =>
      { valid := false, txHash := none, receipt := none,
        error := some "Transaction not found", reason := none }
  | some receipt =>
    if receipt.status != "success" then
      { valid := false, txHash := some txHash, receipt := some receipt,
        error := some "Transaction failed",
        reason := some "Transaction was reverted" }
    else
      match tx? with
      | none =>
          { valid := false, txHash := some txHash, receipt := none,
            error := some "Transaction details not found", reason := none }
      | some tx =>
        if !((tx.to_.map toLowerCase) == some (toLowerCase expectedRecipient)) then
          { valid := false, txHash := some txHash, receipt := some receipt,
            error := some "Invalid recipient",
            reason := some ("Expected " ++ expectedRecipient ++ ", got " ++
              (match tx.to_ with | some t => t | none => "undefined")) }
        else
          match parseUnits expectedAmount CRO_DECIMALS with
          | none =>
              { valid := false, txHash := none, receipt := none,
                error := some "Verification failed",
                reason := some ("Number `" ++ expectedAmount ++
                  "` is not a valid decimal number.") }
          | some expectedValue =>
            if tx.value < expectedValue then
              { valid := false, txHash := some txHash, receipt := some receipt,
                error := some "Insufficient amount",
                reason := some ("Expected " ++
                  formatUnits expectedValue CRO_DECIMALS ++ " CRO, got " ++
                  formatUnits tx.value CRO_DECIMALS ++ " CRO") }
            else
              let confirmations := currentBlock - receipt.blockNumber
              if confirmations < minConfirmations then
                { valid := false, txHash := some txHash,
                  receipt := some receipt,
                  error := some "Insufficient confirmations",
                  reason := some ("Transaction has " ++ toString confirmations ++
                    " confirmations, need " ++ toString minConfirmations) }
              else
                { valid := true, txHash := some txHash,
                  receipt := some receipt, error := none, reason := none }

/-! ## SettlementClient (`facilitator-client.ts`)

The two HTTP endpoints are modelled as response oracles
(`VerifyPaymentRequest → VerifyPaymentResponse` and
`SettlePaymentRequest → SettlePaymentResponse`), and `verifyAndSettle`
additionally returns the ordered list of outbound calls it makes. -/

structure VerifyPaymentRequest where
  network : String
  token : String
  authorization : SignedTransferAuthorization
deriving DecidableEq

structure VerifyPaymentResponse where
  valid : Bool
  reason : Option String
  verificationId : Option String
deriving DecidableEq

structure SettlePaymentRequest where
  network : String
  token : String
  authorization : SignedTransferAuthorization
  verificationId : Option String
deriving DecidableEq

structure SettlePaymentResponse where
  success : Bool
  txHash : Option String
  error : Option String
  reason : Option String
deriving DecidableEq

/-- One outbound call of the facilitator client. -/
inductive FacilitatorCall where
  | verify (req : VerifyPaymentRequest)
  | settle (req : SettlePaymentRequest)
deriving DecidableEq

/-- `CronosFacilitatorClient.verifyAndSettle(network, token, authorization)`
against the given response oracles, returning the result together with the
trace of outbound calls in order. -/
def verifyAndSettle
    (verifyResponse : VerifyPaymentRequest → VerifyPaymentResponse)
    (settleResponse : SettlePaymentRequest → SettlePaymentResponse)
    (network token : String) (authorization : SignedTransferAuthorization) :
    SettlePaymentResponse × List FacilitatorCall :=
  let verifyReq : VerifyPaymentRequest :=
    { network := network, token := token, authorization := authorization }
  let verifyResult := verifyResponse verifyReq
  if !verifyResult.valid then
    ({ success := false, txHash := none,
       error := some "Verification failed",
       reason := verifyResult.reason },
     [FacilitatorCall.verify verifyReq])
  else
    let settleReq : SettlePaymentRequest :=
      { network := network, token := token, authorization := authorization,
        verificationId := verifyResult.verificationId }
    (settleResponse settleReq,
     [FacilitatorCall.verify verifyReq, FacilitatorCall.settle settleReq])

/-! ## PaymentRouter capability check (`CronosPaymentStrategy.canSign`)

The `txOperations.userHasWallets(user.id)` database lookup is modelled by
its boolean result `hasWallets`. -/

/-- `CronosPaymentStrategy.canSign(context)`. -/
def canSign (hasWallets : Bool) (network asset : String) : Bool :=
  if !hasWallets then false
  else if !isCronosNetwork network then false
  else
    let usdcAddress := getUsdcAddress network
    let isUsdc := toLowerCase asset == toLowerCase usdcAddress
    let isCro := asset == CRO_ADDRESS || asset == "0x0" ||
      toLowerCase asset == toLowerCase CRO_ADDRESS
    isUsdc || isCro

end Cronos402

/-! Sanity examples for the decimal conversion (kernel-evaluated). -/

example : Cronos402.parseUnits "1" 6 = some 1000000 := by decide

example : Cronos402.parseUnits "0.01" 6 = some 10000 := by decide

example : Cronos402.parseUnits "0" 6 = some 0 := by decide

example : Cronos402.parseUnits "-1" 6 = some (-1000000) := by decide

example : Cronos402.parseUnits "1" 18 = some 1000000000000000000 := by decide

example : Cronos402.parseUnits "1.2.3" 6 = none := by decide

example : Cronos402.formatUnits 1000000 6 = "1" := by decide

example : Cronos402.formatUnits 10000 6 = "0.01" := by decide

example : Cronos402.formatUnits 1500000000000000000 18 = "1.5" := by decide

example :
    Cronos402.generateNonce 1700000000000 (List.replicate 24 171) =
      "0x0000018bcfe56800abababababababababababababababababababababababab" := by
  decide

example :
    (Cronos402.generateNonce 1700000000000 (List.replicate 24 171)).length = 66 := by
  decide

example :
    Cronos402.validateTransferAuthorization
      { from_ := "0xA", to_ := "0xB", value := 1, validAfter := 0,
        validBefore := 10,
        nonce := Cronos402.generateNonce 1700000000000 (List.replicate 24 171) }
      5 = { valid := true, error := none } := by
  decide

example :
    Cronos402.verifyCroPayment "0xh" "0xB" "1"
      (some { status := "success", blockNumber := 100 })
      (some { to_ := some "0xb", value := 10 ^ 18 }) 101 2 =
      { valid := false, txHash := some "0xh",
        receipt := some { status := "success", blockNumber := 100 },
        error := some "Insufficient confirmations",
        reason := some "Transaction has 1 confirmations, need 2" } := by
  decide

example :
    Cronos402.verifyCroPayment "0xh" "0xB" "1"
      (some { status := "success", blockNumber := 100 })
      (some { to_ := some "0xb", value := 10 ^ 17 }) 105 2 =
      { valid := false, txHash := some "0xh",
        receipt := some { status := "success", blockNumber := 100 },
        error := some "Insufficient amount",
        reason := some "Expected 1 CRO, got 0.1 CRO" } := by
  decide

example : Cronos402.canSign true "cronos-mainnet" "0x0" = true := by decide

example :
    Cronos402.canSign true "cronos-mainnet"
      "0xF951EC28187D9E5CA673DA8FE6757E6F0BE5F77C" = true := by decide

example : Cronos402.canSign true "ethereum" "0x0" = false := by decide

namespace Cronos402

/-! ## Helper lemmas on string lengths -/

theorem hexDigitsCore_length_le (fuel : Nat) :
    ∀ (n : Nat) (acc : List Char) (k : Nat), n < 16 ^ k → 0 < k →
      (hexDigitsCore fuel n acc).length ≤ k + acc.length := by
  induction fuel with
  | zero =>
      intro n acc k _ _
      simp [hexDigitsCore]
  | succ fuel ih =>
      intro n acc k hn hk
      unfold hexDigitsCore
      by_cases h16 : n / 16 = 0
      · simp [h16]
        omega
      · simp only [h16, if_neg]
        obtain ⟨k', rfl⟩ : ∃ k', k = k' + 1 := ⟨k - 1, by omega⟩
        have hdiv : n / 16 < 16 ^ k' := by
          have : n < 16 * 16 ^ k' := by
            calc n < 16 ^ (k' + 1) := hn
            _ = 16 * 16 ^ k' := by ring
          exact Nat.div_lt_of_lt_mul this
        have hk' : 0 < k' := by
          rcases Nat.eq_zero_or_pos k' with h0 | h
          · exfalso
            rw [h0] at hdiv
            simp at hdiv
            exact h16 hdiv
          · exact h
        have := ih (n / 16) (Nat.digitChar (n % 16) :: acc) k' hdiv hk'
        simp at this ⊢
        omega

theorem natToHex_length_le (n k : Nat) (hn : n < 16 ^ k) (hk : 0 < k) :
    (natToHex n).length ≤ k := by
  have := hexDigitsCore_length_le (n + 1) n [] k hn hk
  simpa [natToHex] using this

theorem padStart_length_of_le (s : String) (n : Nat) (c : Char)
    (h : s.length ≤ n) : (padStart s n c).length = n := by
  simp [padStart]
  omega

theorem byteToHex_length (b : Nat) (hb : b < 256) : (byteToHex b).length = 2 :=
  padStart_length_of_le _ _ _ (natToHex_length_le b 2 hb (by decide))

theorem bytesToHex_length (l : List Nat) (h : ∀ b ∈ l, b < 256) :
    (bytesToHex l).length = 2 * l.length := by
  induction l with
  | nil => simp [bytesToHex]
  | cons b rest ih =>
      have hb : b < 256 := h b (List.mem_cons_self b rest)
      have hrest : ∀ x ∈ rest, x < 256 := fun x hx => h x (List.mem_cons_of_mem b hx)
      simp [bytesToHex, byteToHex_length b hb, ih hrest]
      ring

/-- The generated nonce is a 66-character string (`0x` + 64 hex digits,
i.e. 32 bytes) whenever the timestamp fits in 8 bytes and the random input
consists of 24 bytes. -/
theorem generateNonce_length (timestampMs : Nat) (randomBytes : List Nat)
    (hts : timestampMs < 16 ^ 16) (hb : ∀ b ∈ randomBytes, b < 256)
    (hlen : randomBytes.length = 24) :
    (generateNonce timestampMs randomBytes).length = 66 := by
  have h1 : (padStart (natToHex timestampMs) 16 '0').length = 16 :=
    padStart_length_of_le _ _ _ (natToHex_length_le timestampMs 16 hts (by decide))
  have h2 : (bytesToHex randomBytes).length = 48 := by
    rw [bytesToHex_length randomBytes hb, hlen]
  have h0 : ("0x" : String).length = 2 := by decide
  simp [generateNonce, h0, h1, h2]

/-! ## Claim theorems -/

/-- Modelled from the spec's §4.2 wording (used only as the comparison side
of the refinement claim about check order): the ordered invariant list
"positive value → non-self-transfer → not-expired → not-yet-valid → nonce
length", each with its reason, the first violated one reported. -/
def specOrderedChecks (auth : TransferAuthorization) (now : Int) :
    List (Bool × String) :=
  [ (auth.value ≤ 0, "Transfer amount must be positive"),
    (auth.from_ == auth.to_, "Cannot transfer to self"),
    (auth.validBefore ≤ now, "Authorization has expired"),
    (auth.validAfter > now, "Authorization not yet valid"),
    (auth.nonce.length ≠ 66, "Invalid nonce format") ]

/-- Modelled from the spec: outcome of reporting the first violated
invariant of the ordered list, or success when none is violated. -/
def specFirstViolationOutcome (auth : TransferAuthorization) (now : Int) :
    ValidationResult :=
  match (specOrderedChecks auth now).find? (fun c => c.1) with
  | some c => { valid := false, error := some c.2 }
  | none => { valid := true, error := none }

/-- C3: `validateTransferAuthorization` checks the invariants in the fixed
order positive-value, non-self-transfer, not-expired, not-yet-valid,
nonce-length, returns the documented reason of the first violated invariant
("Transfer amount must be positive", "Cannot transfer to self",
"Authorization has expired", "Authorization not yet valid",
"Invalid nonce format"), and returns valid with no error otherwise. -/
theorem validateTransferAuthorization_first_violation
    (auth : TransferAuthorization) (now : Int) :
    validateTransferAuthorization auth now = specFirstViolationOutcome auth now := by
  unfold validateTransferAuthorization specFirstViolationOutcome specOrderedChecks
  by_cases h1 : auth.value ≤ 0 <;>
    by_cases h2 : auth.from_ == auth.to_ <;>
      by_cases h3 : auth.validBefore ≤ now <;>
        by_cases h4 : auth.validAfter > now <;>
          by_cases h5 : auth.nonce.length = 66 <;>
            simp [h1, h2, h3, h4, h5, List.find?]

/-- C2 counterexample: an authorization whose `to` field is the zero/burn
sentinel address and which satisfies every other invariant is accepted by
`validateTransferAuthorization` — the validator has no zero-address check. -/
theorem validateTransferAuthorization_accepts_zero_recipient :
    validateTransferAuthorization
      { from_ := "0x742D35cC6634C0532925A3b844bc9E7595f0BEb8",
        to_ := CRO_ADDRESS, value := 1, validAfter := 0,
        validBefore := 1700003600,
        nonce := "0x0000018bcfe56800abababababababababababababababababababababababab" }
      1700000000 = { valid := true, error := none } := by
  decide

/-- C2 amended: `validateTransferAuthorization` checks positive value,
non-self-transfer, the validity window and the nonce length, but not the
zero/burn-sentinel recipient: every authorization to the zero sentinel that
satisfies the other invariants is accepted. -/
theorem validateTransferAuthorization_no_zero_recipient_check
    (from_ : String) (value validAfter validBefore now : Int) (nonce : String)
    (hv : 0 < value) (hfrom : from_ ≠ CRO_ADDRESS)
    (hexp : now < validBefore) (hnyv : validAfter ≤ now)
    (hnonce : nonce.length = 66) :
    validateTransferAuthorization
      { from_ := from_, to_ := CRO_ADDRESS, value := value,
        validAfter := validAfter, validBefore := validBefore, nonce := nonce }
      now = { valid := true, error := none } := by
  unfold validateTransferAuthorization
  have h1 : ¬ (value ≤ 0) := by omega
  have h3 : ¬ (validBefore ≤ now) := by omega
  have h4 : ¬ (validAfter > now) := by omega
  simp [h1, h3, h4, hfrom, hnonce]

/-- C2 witness for the amended theorem. -/
theorem validateTransferAuthorization_no_zero_recipient_check_witness :
    validateTransferAuthorization
      { from_ := "0x742D35cC6634C0532925A3b844bc9E7595f0BEb8",
        to_ := CRO_ADDRESS, value := 25, validAfter := 10,
        validBefore := 5000, nonce :=
          "0x0000018bcfe56800abababababababababababababababababababababababab" }
      100 = { valid := true, error := none } :=
  validateTransferAuthorization_no_zero_recipient_check
    "0x742D35cC6634C0532925A3b844bc9E7595f0BEb8" 25 10 5000 100 _
    (by decide) (by decide) (by decide) (by decide) (by decide)

/-- C4: amount conversion is exact integer arithmetic over the asset's
decimal scale: amount "1" yields `value = 1_000_000` on the 6-decimal
stable asset (`createTransferAuthorization`) and `value = 10^18` on the
18-decimal native asset (`buildCroTransaction`). -/
theorem amount_one_converts_exactly
    (from_ to_ : String) (now : Int) (nonce : String)
    (validityWindow : Int) (network : String) :
    (createTransferAuthorization from_ to_ "1" now nonce validityWindow).map
        (fun a => a.value) = some 1000000 ∧
    (buildCroTransaction from_ to_ "1" network).map
        (fun t => t.value) = some 1000000000000000000 :=
  ⟨rfl, rfl⟩

/-- C7 counterexample: `createTransferAuthorization` for amount "0" returns
a `TransferAuthorization` (with `value = 0`) rather than an error. -/
theorem createTransferAuthorization_zero_amount_builds :
    createTransferAuthorization "0x742D35cC6634C0532925A3b844bc9E7595f0BEb8"
      "0x1234567890123456789012345678901234567890" "0" 1700000000
      "0x0000018bcfe56800abababababababababababababababababababababababab"
      3600 =
      some { from_ := "0x742D35cC6634C0532925A3b844bc9E7595f0BEb8",
             to_ := "0x1234567890123456789012345678901234567890",
             value := 0, validAfter := 0, validBefore := 1700003600,
             nonce :=
               "0x0000018bcfe56800abababababababababababababababababababababababab" } := by
  decide

/-- C7 amended: the builder performs no positivity check — every amount
string that parses (including ones converting to zero or negative values)
yields a `TransferAuthorization` carrying that value; a non-positive value
is rejected only later, by `validateTransferAuthorization`. -/
theorem createTransferAuthorization_no_positivity_check
    (from_ to_ amount : String) (now : Int) (nonce : String)
    (validityWindow v : Int) (hparse : parseUnits amount 6 = some v) :
    createTransferAuthorization from_ to_ amount now nonce validityWindow =
      some { from_ := from_, to_ := to_, value := v, validAfter := 0,
             validBefore := now + validityWindow, nonce := nonce } ∧
    (∀ t : Int, v ≤ 0 →
      validateTransferAuthorization
        { from_ := from_, to_ := to_, value := v, validAfter := 0,
          validBefore := now + validityWindow, nonce := nonce } t =
        { valid := false, error := some "Transfer amount must be positive" }) := by
  constructor
  · unfold createTransferAuthorization
    rw [hparse]
    rfl
  · intro t hv
    unfold validateTransferAuthorization
    simp [hv]

/-- C7 witness for the amended theorem. -/
theorem createTransferAuthorization_no_positivity_check_witness :
    createTransferAuthorization "0xA" "0xB" "0" 100 "0xN" 3600 =
      some { from_ := "0xA", to_ := "0xB", value := 0, validAfter := 0,
             validBefore := 3700, nonce := "0xN" } ∧
    validateTransferAuthorization
      { from_ := "0xA", to_ := "0xB", value := 0, validAfter := 0,
        validBefore := 3700, nonce := "0xN" } 50 =
      { valid := false, error := some "Transfer amount must be positive" } := by
  have h := createTransferAuthorization_no_positivity_check
    "0xA" "0xB" "0" 100 "0xN" 3600 0 (by decide)
  exact ⟨h.1, h.2 50 (by decide)⟩

/-- C10: the self-transfer check of `validateTransferAuthorization` is
case-sensitive while `validateCroTransaction` lowercases both sides: for a
concrete pair of addresses equal up to hexadecimal letter case, the
authorization validator accepts (no "Cannot transfer to self") and the CRO
transaction validator rejects with exactly that error. -/
theorem self_transfer_case_sensitivity_mismatch :
    "0x742D35cC6634C0532925A3b844bc9E7595f0BEb8" ≠
        "0x742d35cc6634c0532925a3b844bc9e7595f0beb8" ∧
    toLowerCase "0x742D35cC6634C0532925A3b844bc9E7595f0BEb8" =
        toLowerCase "0x742d35cc6634c0532925a3b844bc9e7595f0beb8" ∧
    validateTransferAuthorization
      { from_ := "0x742D35cC6634C0532925A3b844bc9E7595f0BEb8",
        to_ := "0x742d35cc6634c0532925a3b844bc9e7595f0beb8",
        value := 1, validAfter := 0, validBefore := 1700003600,
        nonce := "0x0000018bcfe56800abababababababababababababababababababababababab" }
      1700000000 = { valid := true, error := none } ∧
    validateCroTransaction
      { from_ := "0x742D35cC6634C0532925A3b844bc9E7595f0BEb8",
        to_ := "0x742d35cc6634c0532925a3b844bc9e7595f0beb8",
        value := 1, chainId := 25 } =
      { valid := false, error := some "Cannot transfer to self" } := by
  refine ⟨by decide, by decide, by decide, by decide⟩

/-- C5: when the receipt, status, recipient and amount checks pass,
`verifyCroPayment` computes `confirmations = currentBlock - receiptBlock`,
rejects with error "Insufficient confirmations" (reason reporting actual
and required counts) exactly when `confirmations < minConfirmations`, and
accepts when `confirmations` is at least (in particular, equal to)
`minConfirmations`. -/
theorem verifyCroPayment_confirmation_depth
    (txHash expectedRecipient expectedAmount : String)
    (receipt : Receipt) (tx : TxDetails)
    (currentBlock minConfirmations expectedValue : Int)
    (hstatus : receipt.status = "success")
    (hrecip : tx.to_.map toLowerCase = some (toLowerCase expectedRecipient))
    (hparse : parseUnits expectedAmount CRO_DECIMALS = some expectedValue)
    (hamount : expectedValue ≤ tx.value) :
    (currentBlock - receipt.blockNumber < minConfirmations →
      verifyCroPayment txHash expectedRecipient expectedAmount
          (some receipt) (some tx) currentBlock minConfirmations =
        { valid := false, txHash := some txHash, receipt := some receipt,
          error := some "Insufficient confirmations",
          reason := some ("Transaction has " ++
            toString (currentBlock - receipt.blockNumber) ++
            " confirmations, need " ++ toString minConfirmations) }) ∧
    (minConfirmations ≤ currentBlock - receipt.blockNumber →
      verifyCroPayment txHash expectedRecipient expectedAmount
          (some receipt) (some tx) currentBlock minConfirmations =
        { valid := true, txHash := some txHash, receipt := some receipt,
          error := none, reason := none }) ∧
    ((verifyCroPayment txHash expectedRecipient expectedAmount
          (some receipt) (some tx) currentBlock minConfirmations).error =
        some "Insufficient confirmations" ↔
      currentBlock - receipt.blockNumber < minConfirmations) := by
  have hns : ¬ (tx.value < expectedValue) := not_lt.mpr hamount
  refine ⟨?_, ?_, ?_⟩
  · intro hc
    unfold verifyCroPayment
    simp [hstatus, hrecip, hparse, hns, hc]
  · intro hc
    have hc' : ¬ (currentBlock - receipt.blockNumber < minConfirmations) :=
      not_lt.mpr hc
    unfold verifyCroPayment
    simp [hstatus, hrecip, hparse, hns, hc']
  · by_cases hc : currentBlock - receipt.blockNumber < minConfirmations <;>
      unfold verifyCroPayment <;>
        simp [hstatus, hrecip, hparse, hns, hc]

/-- C5 witness: a transaction one block deep against the default two
required confirmations is rejected; two blocks deep it is accepted. -/
theorem verifyCroPayment_confirmation_depth_witness :
    ((101 : Int) - 100 < 2 →
      verifyCroPayment "0xh" "0xB" "1"
          (some { status := "success", blockNumber := 100 })
          (some { to_ := some "0xb", value := 1000000000000000000 }) 101 2 =
        { valid := false, txHash := some "0xh",
          receipt := some { status := "success", blockNumber := 100 },
          error := some "Insufficient confirmations",
          reason := some ("Transaction has " ++ toString ((101 : Int) - 100) ++
            " confirmations, need " ++ toString (2 : Int)) }) ∧
    ((2 : Int) ≤ 101 - 100 →
      verifyCroPayment "0xh" "0xB" "1"
          (some { status := "success", blockNumber := 100 })
          (some { to_ := some "0xb", value := 1000000000000000000 }) 101 2 =
        { valid := true, txHash := some "0xh",
          receipt := some { status := "success", blockNumber := 100 },
          error := none, reason := none }) ∧
    ((verifyCroPayment "0xh" "0xB" "1"
          (some { status := "success", blockNumber := 100 })
          (some { to_ := some "0xb", value := 1000000000000000000 }) 101 2).error =
        some "Insufficient confirmations" ↔ (101 : Int) - 100 < 2) :=
  verifyCroPayment_confirmation_depth "0xh" "0xB" "1"
    { status := "success", blockNumber := 100 }
    { to_ := some "0xb", value := 1000000000000000000 } 101 2
    1000000000000000000 rfl (by decide) (by decide) (by decide)

/-- C6: with receipt, status and recipient checks passing and enough
confirmations, the expected amount is converted to base units at the
18-decimal native scale and the transfer is accepted exactly when the
actual value is at least the expected one; an underpayment is rejected
with error "Insufficient amount" and a reason carrying both amounts in
human-readable form. -/
theorem verifyCroPayment_amount_threshold
    (txHash expectedRecipient expectedAmount : String)
    (receipt : Receipt) (tx : TxDetails)
    (currentBlock minConfirmations expectedValue : Int)
    (hstatus : receipt.status = "success")
    (hrecip : tx.to_.map toLowerCase = some (toLowerCase expectedRecipient))
    (hparse : parseUnits expectedAmount CRO_DECIMALS = some expectedValue)
    (hconf : minConfirmations ≤ currentBlock - receipt.blockNumber) :
    ((verifyCroPayment txHash expectedRecipient expectedAmount
          (some receipt) (some tx) currentBlock minConfirmations).valid = true ↔
        expectedValue ≤ tx.value) ∧
    (tx.value < expectedValue →
      verifyCroPayment txHash expectedRecipient expectedAmount
          (some receipt) (some tx) currentBlock minConfirmations =
        { valid := false, txHash := some txHash, receipt := some receipt,
          error := some "Insufficient amount",
          reason := some ("Expected " ++
            formatUnits expectedValue CRO_DECIMALS ++ " CRO, got " ++
            formatUnits tx.value CRO_DECIMALS ++ " CRO") }) := by
  have hc' : ¬ (currentBlock - receipt.blockNumber < minConfirmations) :=
    not_lt.mpr hconf
  constructor
  · by_cases ha : tx.value < expectedValue <;>
      unfold verifyCroPayment <;>
        simp [hstatus, hrecip, hparse, hc', ha] <;> omega
  · intro ha
    unfold verifyCroPayment
    simp [hstatus, hrecip, hparse, ha]

/-- C6 witness: transferring 0.1 CRO where 1 CRO is expected is rejected
with both human-readable amounts in the reason. -/
theorem verifyCroPayment_amount_threshold_witness :
    ((verifyCroPayment "0xh" "0xB" "1"
          (some { status := "success", blockNumber := 100 })
          (some { to_ := some "0xb", value := 100000000000000000 }) 105 2).valid =
        true ↔ (1000000000000000000 : Int) ≤ 100000000000000000) ∧
    ((100000000000000000 : Int) < 1000000000000000000 →
      verifyCroPayment "0xh" "0xB" "1"
          (some { status := "success", blockNumber := 100 })
          (some { to_ := some "0xb", value := 100000000000000000 }) 105 2 =
        { valid := false, txHash := some "0xh",
          receipt := some { status := "success", blockNumber := 100 },
          error := some "Insufficient amount",
          reason := some ("Expected " ++ formatUnits 1000000000000000000 CRO_DECIMALS ++
            " CRO, got " ++ formatUnits 100000000000000000 CRO_DECIMALS ++ " CRO") }) :=
  verifyCroPayment_amount_threshold "0xh" "0xB" "1"
    { status := "success", blockNumber := 100 }
    { to_ := some "0xb", value := 100000000000000000 } 105 2
    1000000000000000000 rfl (by decide) (by decide) (by decide)

/-- C1: `verifyAndSettle` calls `settle` only when `verify` returned
`valid = true`; when `verify` returns `valid = false` it makes exactly one
outbound call (the verify call) and returns `success = false`,
`error = "Verification failed"` and the verify response's reason; the first
outbound call is always the verify call. -/
theorem verifyAndSettle_short_circuits
    (verifyResponse : VerifyPaymentRequest → VerifyPaymentResponse)
    (settleResponse : SettlePaymentRequest → SettlePaymentResponse)
    (network token : String) (authorization : SignedTransferAuthorization) :
    ((verifyResponse ⟨network, token, authorization⟩).valid = false →
      (verifyAndSettle verifyResponse settleResponse network token authorization).2 =
          [FacilitatorCall.verify ⟨network, token, authorization⟩] ∧
      (verifyAndSettle verifyResponse settleResponse network token authorization).1 =
          { success := false, txHash := none,
            error := some "Verification failed",
            reason := (verifyResponse ⟨network, token, authorization⟩).reason }) ∧
    ((verifyAndSettle verifyResponse settleResponse network token authorization).2.head? =
        some (FacilitatorCall.verify ⟨network, token, authorization⟩)) ∧
    (∀ req : SettlePaymentRequest,
      FacilitatorCall.settle req ∈
          (verifyAndSettle verifyResponse settleResponse network token authorization).2 →
      (verifyResponse ⟨network, token, authorization⟩).valid = true ∧
      (verifyAndSettle verifyResponse settleResponse network token authorization).1 =
        settleResponse ⟨network, token, authorization,
          (verifyResponse ⟨network, token, authorization⟩).verificationId⟩) := by
  cases hval : (verifyResponse ⟨network, token, authorization⟩).valid with
  | false =>
      refine ⟨?_, ?_, ?_⟩
      · intro _
        constructor
        · simp [verifyAndSettle, hval]
        · simp [verifyAndSettle, hval]
      · simp [verifyAndSettle, hval]
      · intro req hmem
        simp [verifyAndSettle, hval] at hmem
  | true =>
      refine ⟨?_, ?_, ?_⟩
      · intro h
        cases h
      · simp [verifyAndSettle, hval]
      · intro req hmem
        simp [verifyAndSettle, hval] at hmem
        subst hmem
        exact ⟨rfl, by simp [verifyAndSettle, hval]⟩

/-- C1 witness: against a facilitator that rejects verification with reason
"invalid signature", the client makes a single verify call and reports the
verification failure. -/
theorem verifyAndSettle_short_circuits_witness :
    ((fun _ : VerifyPaymentRequest =>
        ({ valid := false, reason := some "invalid signature",
           verificationId := none } : VerifyPaymentResponse))
          ⟨"cronos-testnet", "0xTok",
            { from_ := "0xA", to_ := "0xB", value := 1, validAfter := 0,
              validBefore := 100, nonce := "0xN", signature := "0xS" }⟩).valid =
        false ∧
    (verifyAndSettle
        (fun _ => { valid := false, reason := some "invalid signature",
                    verificationId := none })
        (fun _ => { success := true, txHash := some "0xT", error := none,
                    reason := none })
        "cronos-testnet" "0xTok"
        { from_ := "0xA", to_ := "0xB", value := 1, validAfter := 0,
          validBefore := 100, nonce := "0xN", signature := "0xS" }).2 =
      [FacilitatorCall.verify
        ⟨"cronos-testnet", "0xTok",
          { from_ := "0xA", to_ := "0xB", value := 1, validAfter := 0,
            validBefore := 100, nonce := "0xN", signature := "0xS" }⟩] ∧
    (verifyAndSettle
        (fun _ => { valid := false, reason := some "invalid signature",
                    verificationId := none })
        (fun _ => { success := true, txHash := some "0xT", error := none,
                    reason := none })
        "cronos-testnet" "0xTok"
        { from_ := "0xA", to_ := "0xB", value := 1, validAfter := 0,
          validBefore := 100, nonce := "0xN", signature := "0xS" }).1 =
      { success := false, txHash := none, error := some "Verification failed",
        reason := some "invalid signature" } := by
  have h := verifyAndSettle_short_circuits
    (fun _ => { valid := false, reason := some "invalid signature",
                verificationId := none })
    (fun _ => { success := true, txHash := some "0xT", error := none,
                reason := none })
    "cronos-testnet" "0xTok"
    { from_ := "0xA", to_ := "0xB", value := 1, validAfter := 0,
      validBefore := 100, nonce := "0xN", signature := "0xS" }
  exact ⟨rfl, (h.1 rfl).1, (h.1 rfl).2⟩

/-- C8 counterexample: `canSign` returns true for the asset string "0x0",
which is neither the stable-asset address (even case-insensitively) nor the
zero-address sentinel (even case-insensitively). -/
theorem canSign_accepts_0x0_shorthand :
    canSign true CRONOS_NETWORK_MAINNET "0x0" = true ∧
    ("0x0" : String) ≠ CRO_ADDRESS ∧
    toLowerCase "0x0" ≠ toLowerCase CRO_ADDRESS ∧
    toLowerCase "0x0" ≠ toLowerCase (getUsdcAddress CRONOS_NETWORK_MAINNET) := by
  refine ⟨by decide, by decide, by decide, by decide⟩

/-- C8 amended: `canSign` returns true exactly when the payer has an active
wallet, the network is a known Cronos network, and the asset is either the
stable-asset address compared case-insensitively or one of three accepted
forms of the native zero-address sentinel: the exact sentinel, the
shorthand "0x0", or a case-insensitive match of the sentinel. -/
theorem canSign_characterization (hasWallets : Bool) (network asset : String) :
    canSign hasWallets network asset = true ↔
      (hasWallets = true ∧ isCronosNetwork network = true ∧
        (toLowerCase asset = toLowerCase (getUsdcAddress network) ∨
          asset = CRO_ADDRESS ∨ asset = "0x0" ∨
          toLowerCase asset = toLowerCase CRO_ADDRESS)) := by
  unfold canSign
  cases hasWallets <;> by_cases hn : isCronosNetwork network = true <;>
    simp [hn, or_assoc]

/-- C9: the builder's output always passes the validator — for distinct
addresses, an amount converting to a positive value, a positive validity
window, and a nonce generated from an 8-byte timestamp and 24 random bytes,
`createTransferAuthorization` produces an authorization that
`validateTransferAuthorization` accepts at the same time, its nonce being a
66-character hex string (32 bytes). -/
theorem builder_output_passes_validator
    (from_ to_ amount : String) (now validityWindow v : Int)
    (timestampMs : Nat) (randomBytes : List Nat)
    (hne : from_ ≠ to_)
    (hparse : parseUnits amount 6 = some v) (hv : 0 < v)
    (hwin : 0 < validityWindow) (hnow : 0 ≤ now)
    (hts : timestampMs < 16 ^ 16)
    (hbytes : ∀ b ∈ randomBytes, b < 256) (hblen : randomBytes.length = 24) :
    createTransferAuthorization from_ to_ amount now
        (generateNonce timestampMs randomBytes) validityWindow =
      some { from_ := from_, to_ := to_, value := v, validAfter := 0,
             validBefore := now + validityWindow,
             nonce := generateNonce timestampMs randomBytes } ∧
    (generateNonce timestampMs randomBytes).length = 66 ∧
    validateTransferAuthorization
      { from_ := from_, to_ := to_, value := v, validAfter := 0,
        validBefore := now + validityWindow,
        nonce := generateNonce timestampMs randomBytes } now =
      { valid := true, error := none } := by
  have hlen : (generateNonce timestampMs randomBytes).length = 66 :=
    generateNonce_length timestampMs randomBytes hts hbytes hblen
  refine ⟨?_, hlen, ?_⟩
  · unfold createTransferAuthorization
    rw [hparse]
    rfl
  · unfold validateTransferAuthorization
    have h1 : ¬ (v ≤ 0) := by omega
    have h3 : ¬ (now + validityWindow ≤ now) := by omega
    have h4 : ¬ ((0 : Int) > now) := by omega
    simp [h1, h3, h4, hne, hlen]

/-- C9 witness at a concrete input. -/
theorem builder_output_passes_validator_witness :
    createTransferAuthorization "0xA" "0xB" "1" 1000
        (generateNonce 1700000000000 (List.replicate 24 171)) 3600 =
      some { from_ := "0xA", to_ := "0xB", value := 1000000, validAfter := 0,
             validBefore := 1000 + 3600,
             nonce := generateNonce 1700000000000 (List.replicate 24 171) } ∧
    (generateNonce 1700000000000 (List.replicate 24 171)).length = 66 ∧
    validateTransferAuthorization
      { from_ := "0xA", to_ := "0xB", value := 1000000, validAfter := 0,
        validBefore := 1000 + 3600,
        nonce := generateNonce 1700000000000 (List.replicate 24 171) } 1000 =
      { valid := true, error := none } :=
  builder_output_passes_validator "0xA" "0xB" "1" 1000 3600 1000000
    1700000000000 (List.replicate 24 171) (by decide) (by decide) (by decide)
    (by decide) (by decide) (by decide) (by decide) (by decide)

end Cronos402
